import Mathlib

/-!
Shallow embedding of the PhotoGuestsAI backend (FastAPI + S3 + DynamoDB),
covering the personalized-album pipeline, the delivery endpoints, the event
and guest routers, and the object-store service, together with theorems
settling the frozen claims about the system.

Machine integers do not occur in the modelled code paths; byte strings are
modelled as lists of naturals, and the S3 bucket as an association list from
keys to stored objects.
-/

set_option maxHeartbeats 1000000

/-- Byte strings (file contents) are modelled abstractly as lists of naturals. -/
abbrev Bytes := List Nat

/-- A guest-roster entry as written by `submit_guest` in
`app/routers/guests.py`: the dict `{"name": ..., "phone": ..., "photo_url": ...}`. -/
structure Guest where
  name : String
  phone : String
  photo_url : String
deriving Repr, DecidableEq, Inhabited

/-- An object stored in the bucket: either raw bytes (images, zip archives,
folder markers) or the guest-list JSON blob.  JSON serialization is abstracted:
the guest list is stored structurally, and reading it back as JSON succeeds
exactly on `guestList` objects. -/
inductive S3Object where
  | bytes (b : Bytes)
  | guestList (gs : List Guest)
deriving Repr, DecidableEq, Inhabited

/-- The bucket: an association list from S3 keys to objects.  A put replaces
any object already stored at the key. -/
abbrev S3Store := List (String × S3Object)

/-- One `put_object` / `upload_fileobj` call, recording the key, the body and
the request parameters that matter to the spec (content type and server-side
encryption). -/
structure PutRequest where
  key : String
  body : S3Object
  contentType : Option String
  serverSideEncryption : Option String
deriving Repr, DecidableEq, Inhabited

/-- Python exceptions that cross the modelled function boundaries. -/
inductive PyExc where
  | http (status : Nat) (detail : String)
  | badZip
  | other (msg : String)
deriving Repr, DecidableEq, Inhabited

/-- An HTTP response reduced to what the claims speak about: the status code
and the streamed body. -/
structure HttpResponse where
  status : Nat
  body : Bytes
deriving Repr, DecidableEq, Inhabited

/-- Store an object at a key, replacing any previous object at that key. -/
def s3Put (store : S3Store) (key : String) (v : S3Object) : S3Store :=
  (key, v) :: store.filter (fun kv => kv.fst != key)

/-- Read the object at a key, if any. -/
def s3Get (store : S3Store) (key : String) : Option S3Object :=
  store.lookup key

/-- Apply a list of put requests to the store, in order. -/
def applyPuts (store : S3Store) (puts : List PutRequest) : S3Store :=
  puts.foldl (fun s r => s3Put s r.key r.body) store

/-- The keys currently present in the store. -/
def keysOf (store : S3Store) : List String := store.map Prod.fst

/-- Python `str.split(sep)` for a one-character separator, on character
lists: splitting the empty string yields one empty piece, and separators at
the ends yield empty pieces, exactly as in python. -/
def charSplit (sep : Char) : List Char → List (List Char)
  | [] => [[]]
  | c :: cs =>
      let r := charSplit sep cs
      if c == sep then [] :: r
      else
        match r with
        | [] => [[c]]
        | w :: ws => (c :: w) :: ws

/-- Python `str.split(sep)` for a one-character separator. -/
def splitOnChar (sep : Char) (s : String) : List String :=
  (charSplit sep s.data).map (fun cs => String.mk cs)

/-- Join strings with a dot between them (the inverse of splitting on dots). -/
def joinWithDot : List String → String
  | [] => ""
  | [x] => x
  | x :: y :: xs => x ++ "." ++ joinWithDot (y :: xs)

/-- Python `str.endswith`, on the character lists of the strings. -/
def strEndsWith (s suf : String) : Bool := suf.data.isSuffixOf s.data

/-- Python `str.lower`, character by character. -/
def strToLower (s : String) : String := String.mk (s.data.map Char.toLower)

/-- Python `os.path.basename`: the part of a path after the last slash. -/
def basename (p : String) : String := ((splitOnChar '/' p).getLast?).getD ""

/-- Python `s.rsplit(".", 1)[0]`: everything before the last dot, or the whole
string when it contains no dot. -/
def stemOfFilename (s : String) : String :=
  let parts := splitOnChar '.' s
  if parts.length ≤ 1 then s else joinWithDot parts.dropLast

/-- The extension (with leading dot) of `os.path.splitext`, for the filename
shapes reaching it in this code base: leading dots of the basename do not
start an extension. -/
def splitextExt (p : String) : String :=
  let b := basename p
  let core := String.mk (b.data.dropWhile (fun c => c == '.'))
  let parts := splitOnChar '.' core
  if parts.length ≤ 1 then "" else "." ++ (parts.getLast?.getD "")

/-- Python `str.lstrip(".")`: drop leading dots. -/
def lstripDot (s : String) : String := String.mk (s.data.dropWhile (fun c => c == '.'))

/-- String prefix test, on the character lists of the strings. -/
def hasPre (pfx s : String) : Bool := pfx.data.isPrefixOf s.data

/-- The keys of the store lying under a given prefix — the set an S3
`list_objects_v2` call with that prefix would return. -/
def resultKeysFor (store : S3Store) (pfx : String) : List String :=
  (keysOf store).filter (fun k => hasPre pfx k)

/-- Decide whether an `Except` result is a success. -/
def exceptOk {ε α : Type} : Except ε α → Bool
  | .ok _ => true
  | .error _ => false

theorem list_isPrefixOf_append (l t : List Char) : l.isPrefixOf (l ++ t) = true := by
  induction l with
  | nil => simp [List.isPrefixOf]
  | cons a as ih => simp [List.isPrefixOf, ih]

theorem hasPre_append (pfx t : String) : hasPre pfx (pfx ++ t) = true := by
  simp only [hasPre, String.data_append]
  exact list_isPrefixOf_append pfx.data t.data

theorem s3Get_put_same (store : S3Store) (k : String) (v : S3Object) :
    s3Get (s3Put store k v) k = some v := by
  simp [s3Get, s3Put, List.lookup]

theorem lookup_filter_ne (store : S3Store) (k k' : String) (h : k' ≠ k) :
    (store.filter (fun kv => kv.fst != k)).lookup k' = store.lookup k' := by
  induction store with
  | nil => rfl
  | cons hd tl ih =>
    obtain ⟨a, b⟩ := hd
    by_cases hk : a = k
    · subst hk
      have hne : (k' == a) = false := by simp [h]
      simp [List.filter, List.lookup, hne, ih]
    · have hkeep : (a != k) = true := by simp [hk]
      by_cases hk2 : k' = a
      · subst hk2
        simp [List.filter, hkeep, List.lookup]
      · have hne : (k' == a) = false := by simp [hk2]
        simp [List.filter, hkeep, List.lookup, hne, ih]

theorem s3Get_put_ne (store : S3Store) (k : String) (v : S3Object) (k' : String)
    (h : k' ≠ k) : s3Get (s3Put store k v) k' = s3Get store k' := by
  have hne : (k' == k) = false := by simp [h]
  simp [s3Get, s3Put, List.lookup, hne, lookup_filter_ne store k k' h]

theorem applyPuts_cons (store : S3Store) (p : PutRequest) (ps : List PutRequest) :
    applyPuts store (p :: ps) = applyPuts (s3Put store p.key p.body) ps := rfl

theorem s3Get_applyPuts_not_mem (puts : List PutRequest) (store : S3Store) (k : String)
    (h : ∀ p ∈ puts, p.key ≠ k) :
    s3Get (applyPuts store puts) k = s3Get store k := by
  induction puts generalizing store with
  | nil => rfl
  | cons p ps ih =>
    rw [applyPuts_cons, ih _ (fun q hq => h q (List.mem_cons_of_mem p hq))]
    exact s3Get_put_ne store p.key p.body k (fun he => h p (List.mem_cons_self p ps) he.symm)

theorem s3Get_applyPuts_mem (puts : List PutRequest) (store : S3Store) (p : PutRequest)
    (hmem : p ∈ puts) (hnd : (puts.map PutRequest.key).Nodup) :
    s3Get (applyPuts store puts) p.key = some p.body := by
  induction puts generalizing store with
  | nil => cases hmem
  | cons q ps ih =>
    rcases List.mem_cons.mp hmem with hpq | hp
    · subst hpq
      rw [applyPuts_cons]
      have hnotail : ∀ r ∈ ps, r.key ≠ p.key := by
        intro r hr he
        have : p.key ∈ ps.map PutRequest.key := he ▸ List.mem_map_of_mem PutRequest.key hr
        exact (List.nodup_cons.mp hnd).1 this
      rw [s3Get_applyPuts_not_mem ps _ p.key hnotail]
      exact s3Get_put_same store p.key p.body
    · rw [applyPuts_cons]
      exact ih _ hp (List.nodup_cons.mp hnd).2

theorem keysOf_s3Put (store : S3Store) (k : String) (v : S3Object) :
    keysOf (s3Put store k v) = k :: (keysOf store).filter (fun a => a != k) := by
  induction store with
  | nil => rfl
  | cons hd tl ih =>
    obtain ⟨a, b⟩ := hd
    by_cases hk : a = k
    · subst hk
      have : (a != a) = false := by simp
      simp [s3Put, keysOf, List.filter, this] at ih ⊢
      simpa [s3Put, keysOf] using ih
    · have hkeep : (a != k) = true := by simp [hk]
      simp [s3Put, keysOf, List.filter, hkeep] at ih ⊢
      simpa [s3Put, keysOf] using ih

theorem mem_keysOf_applyPuts (puts : List PutRequest) (store : S3Store) (a : String) :
    a ∈ keysOf (applyPuts store puts) ↔ a ∈ puts.map PutRequest.key ∨ a ∈ keysOf store := by
  induction puts generalizing store with
  | nil => simp [applyPuts]
  | cons p ps ih =>
    rw [applyPuts_cons, ih]
    constructor
    · rintro (h | h)
      · exact Or.inl (List.mem_cons_of_mem _ h)
      · rw [keysOf_s3Put] at h
        rcases List.mem_cons.mp h with h | h
        · exact Or.inl (h ▸ List.mem_cons_self _ _)
        · exact Or.inr ((List.mem_filter.mp h).1)
    · rintro (h | h)
      · rcases (show a = p.key ∨ ∃ q ∈ ps, q.key = a by simpa using h) with h | ⟨q, hq, hqa⟩
        · refine Or.inr ?_
          rw [keysOf_s3Put]
          exact h ▸ List.mem_cons_self _ _
        · exact Or.inl (hqa ▸ List.mem_map_of_mem _ hq)
      · by_cases hak : a = p.key
        · subst hak
          refine Or.inr ?_
          rw [keysOf_s3Put]
          exact List.mem_cons_self _ _
        · refine Or.inr ?_
          rw [keysOf_s3Put]
          exact List.mem_cons_of_mem _ (List.mem_filter.mpr ⟨h, by simp [hak]⟩)

theorem nodup_keysOf_s3Put (store : S3Store) (k : String) (v : S3Object)
    (h : (keysOf store).Nodup) : (keysOf (s3Put store k v)).Nodup := by
  rw [keysOf_s3Put]
  refine List.nodup_cons.mpr ⟨?_, List.Nodup.filter _ h⟩
  intro hmem
  have := (List.mem_filter.mp hmem).2
  simp at this

theorem nodup_keysOf_applyPuts (puts : List PutRequest) (store : S3Store)
    (h : (keysOf store).Nodup) : (keysOf (applyPuts store puts)).Nodup := by
  induction puts generalizing store with
  | nil => exact h
  | cons p ps ih => exact applyPuts_cons store p ps ▸ ih _ (nodup_keysOf_s3Put store p.key p.body h)

/-! ## Object Store Gateway — `app/s3_service.py` -/

namespace S3Service

/-- The bucket name hardcoded in `app/s3_service.py`.  Bucket selection is
configuration; the embedding models a single store keyed by object key. -/
def BUCKET_NAME : String := "photoguests-events"

/-- `create_event_folder` (`app/s3_service.py` lines 22-49): returns the folder
path and the three zero-byte folder-marker writes, each requesting
`ServerSideEncryption="aws:kms"`. -/
def create_event_folder (username event_date event_name event_id : String) :
    String × List PutRequest :=
  let folder_name := username ++ "/" ++ event_date ++ "/" ++ event_name ++ "/" ++ event_id ++ "/"
  (folder_name,
    ["album/", "guest-submissions/", "personalized-albums/"].map (fun sub =>
      { key := folder_name ++ sub
        body := S3Object.bytes []
        contentType := none
        serverSideEncryption := some "aws:kms" }))

/-- `upload_file_to_s3` (`app/s3_service.py` lines 116-142): a single
`upload_fileobj` with the given content type and `ServerSideEncryption="aws:kms"`. -/
def upload_file_to_s3 (file : Bytes) (file_name : String) (content_type : String) : PutRequest :=
  { key := file_name
    body := S3Object.bytes file
    contentType := some content_type
    serverSideEncryption := some "aws:kms" }

/-- `upload_images_to_s3` (`app/s3_service.py` lines 52-91): uploads each local
image file under `base_s3_path/<basename>`, content type `image/jpeg`,
`ServerSideEncryption="aws:kms"`.  Local files are modelled as
(path, bytes) pairs. -/
def upload_images_to_s3 (images : List (String × Bytes)) (base_s3_path : String) :
    List PutRequest :=
  images.map (fun img =>
    { key := base_s3_path ++ "/" ++ basename img.fst
      body := S3Object.bytes img.snd
      contentType := some "image/jpeg"
      serverSideEncryption := some "aws:kms" })

/-- `append_to_guest_list_in_s3` (`app/s3_service.py` lines 167-186): read the
guest list (a missing object — `NoSuchKey` — yields the empty list), append the
submission, and `put_object` the whole list back with
`ContentType='application/json'` and NO `ServerSideEncryption` parameter.
A stored object that is not a JSON guest list makes `json.loads` raise, which
the function re-raises. -/
def append_to_guest_list_in_s3 (store : S3Store) (file_key : String)
    (guest_submission : Guest) : Except PyExc (S3Store × PutRequest) :=
  match s3Get store file_key with
  | some (S3Object.bytes _) =>
      Except.error (PyExc.other "guest list object is not a JSON guest list")
  | some (S3Object.guestList gs) =>
      let req : PutRequest :=
        { key := file_key
          body := S3Object.guestList (gs ++ [guest_submission])
          contentType := some "application/json"
          serverSideEncryption := none }
      Except.ok (s3Put store file_key req.body, req)
  | none =>
      let req : PutRequest :=
        { key := file_key
          body := S3Object.guestList [guest_submission]
          contentType := some "application/json"
          serverSideEncryption := none }
      Except.ok (s3Put store file_key req.body, req)

/-- `get_guest_list_from_s3` (`app/s3_service.py` lines 189-200): read
`{event_path}guest-submissions/guest_list.json`; any failure (missing object,
parse error) is swallowed and yields the empty list. -/
def get_guest_list_from_s3 (store : S3Store) (event_path : String) : List Guest :=
  match s3Get store (event_path ++ "guest-submissions/guest_list.json") with
  | some (S3Object.guestList gs) => gs
  | _ => []

/-- `download_file_from_s3` (`app/s3_service.py` lines 145-164): fetch the
object's bytes, raising when the object is absent.  A structured guest-list
object downloads as its serialized bytes, abstracted here as `[]`. -/
def download_file_from_s3 (store : S3Store) (s3_key : String) : Except PyExc Bytes :=
  match s3Get store s3_key with
  | some (S3Object.bytes b) => Except.ok b
  | some (S3Object.guestList _) => Except.ok []
  | none => Except.error (PyExc.other "Error downloading file from S3")

/-- `download_file_as_bytes` (`app/s3_service.py` lines 203-219): same read,
returning the content as bytes. -/
def download_file_as_bytes (store : S3Store) (s3_key : String) : Except PyExc Bytes :=
  download_file_from_s3 store s3_key

end S3Service

/-! ## Event/Guest Directory — `app/dynamodb_service.py` and the event model -/

/-! Lifecycle statuses from `app/enums/event_status.py`. -/

namespace EventStatus

def PENDING_UPLOAD : String := "ממתין להעלאה"

def ALBUM_UPLOADED : String := "אלבום הועלה"

def COMPLETED : String := "האלבומים נשלחו לאורחים"

end EventStatus

/-- An event record, with the attributes written by `create_event`
(`app/routers/events.py` lines 110-120).  `num_images` models the optional
`num_images` attribute read by `event.get("num_images", 10000)`; events created
by `create_event` never carry it.  The `created_at` timestamp is never read and
is not modelled. -/
structure Event where
  event_id : String
  event_name : String
  event_date : String
  photographer_name : String
  email : String
  phone : String
  folder : String
  status : String
  num_images : Option Nat
deriving Repr, DecidableEq, Inhabited

/-- The Events table. -/
abbrev EventsTable := List Event

/-- `get_event_by_id` (`app/dynamodb_service.py` lines 42-56). -/
def get_event_by_id (table : EventsTable) (event_id : String) : Option Event :=
  table.find? (fun e => e.event_id == event_id)

/-- `update_event_status` (`app/dynamodb_service.py` lines 153-172): a targeted
`SET #status = :status` update. -/
def update_event_status (table : EventsTable) (event_id status : String) : EventsTable :=
  table.map (fun e => if e.event_id == event_id then { e with status := status } else e)

/-- Python dict subscript access `event[k]` on a stored event record.  The
record keys are exactly those written by `create_event`
(`app/routers/events.py` lines 110-120); in particular there is no `"name"`
key (the display name is stored under `"event_name"`), so `event["name"]`
raises `KeyError`. -/
def Event.getAttr (e : Event) (k : String) : Option String :=
  if k == "event_id" then some e.event_id
  else if k == "event_name" then some e.event_name
  else if k == "event_date" then some e.event_date
  else if k == "photographer_name" then some e.photographer_name
  else if k == "email" then some e.email
  else if k == "phone" then some e.phone
  else if k == "folder" then some e.folder
  else if k == "status" then some e.status
  else none

/-- Modelled from the spec: `generate_event_folder_path` is imported from
`app/routers/events.py` by `albums.py` and `guests.py`, but its definition is
absent from the source tree.  The spec (sections 3 and 6) fixes the storage
path as the hierarchical `{owner}/{date}/{eventName}/{eventId}/` composed from
the event's immutable attributes, matching the folder written by
`create_event_folder`. -/
def generate_event_folder_path (e : Event) : String :=
  e.photographer_name ++ "/" ++ e.event_date ++ "/" ++ e.event_name ++ "/" ++ e.event_id ++ "/"

/-! ## Recognition Client + pipeline — `app/faceRecognitionIntegrationService.py`
(the per-image variant; module name starts lowercase) -/

namespace FaceRecImages

/-- One response of the remote face-recognition service: an HTTP status and,
for a 200, the entries (name, bytes) of the returned zip archive.  A list of
responses models what the service would answer on successive attempts. -/
structure RecResponse where
  status_code : Nat
  content : List (String × Bytes)
deriving Repr, DecidableEq, Inhabited

/-- `send_to_face_recognition_service` (`app/faceRecognitionIntegrationService.py`
lines 92-134): a single `requests.post` with no timeout and no retry — only the
first response is ever consumed; a connection failure (no response) or a
non-200 status raises.  On 200 the response zip is saved and extracted into
`temp_dir`, returning the extracted local file paths (paired here with their
bytes). -/
def send_to_face_recognition_service (responses : List RecResponse)
    (temp_dir : String) : Except PyExc (List (String × Bytes)) :=
  match responses with
  | [] => Except.error (PyExc.other "Request to face recognition service failed")
  | r :: _ =>
      if r.status_code ≠ 200 then
        Except.error (PyExc.other "Face recognition service failed with non-200 status")
      else
        Except.ok (r.content.map (fun e => (temp_dir ++ "/" ++ e.fst, e.snd)))

/-- `create_and_upload_personalized_albums`
(`app/faceRecognitionIntegrationService.py` lines 24-89): split the event
prefix, download the event album and the guest photo, call the recognition
service, and upload the extracted images under
`{base}personalized-albums/{phone}` via `upload_images_to_s3`.  Returns the
final store together with the outcome; on any exception the function re-raises
after cleanup of the local temp directory (local files are not part of the
store).  The python name of the first string parameter is `event_prefix`. -/
def create_and_upload_personalized_albums (store : S3Store)
    (event_pre phone_number : String) (responses : List RecResponse)
    (temp_dir : String) : S3Store × Except PyExc (List PutRequest) :=
  let parts := splitOnChar '/' event_pre
  match parts.get? 0, parts.get? 1, parts.get? 2, parts.get? 3 with
  | some p0, some p1, some p2, some p3 =>
      let base_path := p0 ++ "/" ++ p1 ++ "/" ++ p2 ++ "/" ++ p3 ++ "/"
      let event_album_s3_path := base_path ++ "album/event_album.zip"
      let guest_photo_s3_path := base_path ++ "guest-submissions/"
      let personalized_album_s3_path := base_path ++ "personalized-albums/" ++ phone_number
      match S3Service.download_file_from_s3 store event_album_s3_path with
      | Except.error e => (store, Except.error e)
      | Except.ok _ =>
          match S3Service.download_file_from_s3 store guest_photo_s3_path with
          | Except.error e => (store, Except.error e)
          | Except.ok _ =>
              match send_to_face_recognition_service responses temp_dir with
              | Except.error e => (store, Except.error e)
              | Except.ok personalized_images =>
                  let puts := S3Service.upload_images_to_s3 personalized_images
                      personalized_album_s3_path
                  (applyPuts store puts, Except.ok puts)
  | _, _, _, _ => (store, Except.error (PyExc.other "IndexError"))

/-- Modelled from the spec (refinement comparison only): the spec's Recognize
stage — "On `ServiceUnavailable`, retry up to a fixed small bound (e.g., 3
attempts) with exponential backoff; on exhaustion, surface `RecognitionFailed`".
Successive attempts consume successive service responses. -/
def spec_retry_send (bound : Nat) (responses : List RecResponse)
    (temp_dir : String) : Except PyExc (List (String × Bytes)) :=
  match bound with
  | 0 => Except.error (PyExc.other "RecognitionFailed")
  | b + 1 =>
      match responses with
      | [] => Except.error (PyExc.other "RecognitionFailed")
      | r :: rest =>
          if r.status_code ≠ 200 then spec_retry_send b rest temp_dir
          else Except.ok (r.content.map (fun e => (temp_dir ++ "/" ++ e.fst, e.snd)))

end FaceRecImages

/-! ## Recognition Client + pipeline — `app/FaceRecognitionIntegrationService.py`
(the single-zip variant; module name starts uppercase) -/

namespace FaceRecZip

/-- One response of the remote service for the zip variant: status and the raw
body bytes (the personalized album zip). -/
structure RawResponse where
  status_code : Nat
  content : Bytes
deriving Repr, DecidableEq, Inhabited

/-- `send_to_face_recognition_service` (`app/FaceRecognitionIntegrationService.py`
lines 65-78): a single `requests.post`, no timeout, no retry; non-200 raises;
on 200 the raw response bytes are returned. -/
def send_to_face_recognition_service (responses : List RawResponse) :
    Except PyExc Bytes :=
  match responses with
  | [] => Except.error (PyExc.other "Face recognition service error")
  | r :: _ =>
      if r.status_code ≠ 200 then
        Except.error (PyExc.other "Face recognition service failed")
      else Except.ok r.content

/-- `process_and_upload_album` (`app/FaceRecognitionIntegrationService.py`
lines 16-62): download the event album, call the service, and upload the
returned zip as a single object `{base}personalized-albums/{phone_number}_album.zip`.
The guest reference photo is only forwarded to the remote service and does not
affect the store. -/
def process_and_upload_album (store : S3Store)
    (username event_date event_name event_id phone_number : String)
    (responses : List RawResponse) : S3Store × Except PyExc String :=
  let base_path := username ++ "/" ++ event_date ++ "/" ++ event_name ++ "/" ++ event_id ++ "/"
  let event_album_s3_path := base_path ++ "album/event_album.zip"
  let personalized_album_s3_path := base_path ++ "personalized-albums/" ++ phone_number ++ "_album.zip"
  match S3Service.download_file_from_s3 store event_album_s3_path with
  | Except.error e => (store, Except.error e)
  | Except.ok _ =>
      match send_to_face_recognition_service responses with
      | Except.error e => (store, Except.error e)
      | Except.ok content =>
          let put := S3Service.upload_file_to_s3 content personalized_album_s3_path
              "application/zip"
          (s3Put store put.key put.body, Except.ok personalized_album_s3_path)

end FaceRecZip

/-! ## Guest identity derivation and the roster validation -/

/-- The `guest_uuid` derivation in `send_personalized_albums`
(`app/routers/guests.py` line 124):
`guest.get("photo_url").split("/")[-1].rsplit(".", 1)[0]` — the stem of the
stored photo filename. -/
def guest_uuid_from_photo_url (photo_url : String) : String :=
  stemOfFilename (basename photo_url)

/-- Modelled from the spec: `validate_guest_by_uuid_and_phone_number` is
imported from `app/routers/guests.py` by `albums.py` (line 10) but its
definition is absent from the source tree.  Spec section 4.6: look up the
guest roster and find an entry whose phone number matches AND whose derived
opaque identifier matches (the identifier is derived from the stored photo
filename, as on `guests.py` line 124); absence of a match is Forbidden. -/
def validate_guest_by_uuid_and_phone_number (store : S3Store)
    (event_folder_path guest_uuid phone_number : String) : Bool :=
  (S3Service.get_guest_list_from_s3 store event_folder_path).any
    (fun g => g.phone == phone_number && guest_uuid_from_photo_url g.photo_url == guest_uuid)

/-! ## Albums router — `app/routers/albums.py` -/

namespace AlbumsRouter

/-- The uploaded album file: either not a valid zip, or a zip with its
namelist entries (name, bytes). -/
inductive ZipUpload where
  | badZip
  | zip (entries : List (String × Bytes))
deriving Repr, DecidableEq, Inhabited

/-- The ignore list of `upload_event_album` (`app/routers/albums.py` line 50). -/
def ignored_files : List String := ["__MACOSX/", ".DS_Store", "Thumbs.db", "desktop.ini"]

/-- The filter on zip entries (`app/routers/albums.py` lines 51-53): drop
entries starting with an ignored name and keep only image extensions
(case-insensitive). -/
def image_files_of (entries : List (String × Bytes)) : List (String × Bytes) :=
  entries.filter (fun e =>
    !(ignored_files.any (fun ig => hasPre ig e.fst)) &&
      (strEndsWith (strToLower e.fst) ".jpg" || strEndsWith (strToLower e.fst) ".jpeg" ||
        strEndsWith (strToLower e.fst) ".png"))

/-- The body of the `try` block of `upload_event_album`
(`app/routers/albums.py` lines 34-88): resolve the event, check ownership,
reject when the status is already "album uploaded", then extract, rename
sequentially and upload the images one by one and mark the event. -/
def upload_event_album_inner (table : EventsTable) (store : S3Store)
    (event_id current_user : String) (album : ZipUpload) :
    Except PyExc (EventsTable × S3Store × Nat) :=
  match get_event_by_id table event_id with
  | none => Except.error (PyExc.http 404 "Event not found")
  | some event =>
      if event.email ≠ current_user then
        Except.error (PyExc.http 403 "You are not authorized to upload to this event")
      else if event.status == EventStatus.ALBUM_UPLOADED then
        Except.error (PyExc.http 400 "An album has already been uploaded for this event.")
      else
        match album with
        | ZipUpload.badZip => Except.error PyExc.badZip
        | ZipUpload.zip entries =>
            let image_files := image_files_of entries
            if image_files.isEmpty then
              Except.error (PyExc.http 400 "No valid images found in the ZIP file.")
            else if image_files.length > event.num_images.getD 10000 then
              Except.error (PyExc.http 400 "Uploaded ZIP exceeds the allowed image limit")
            else
              let event_folder_path := generate_event_folder_path event
              let puts := image_files.enum.map (fun p =>
                S3Service.upload_file_to_s3 p.snd.snd
                  (event_folder_path ++ "album/" ++ toString (p.fst + 1) ++ splitextExt p.snd.fst)
                  ("image/" ++ lstripDot (splitextExt p.snd.fst)))
              Except.ok (update_event_status table event_id EventStatus.ALBUM_UPLOADED,
                applyPuts store puts, image_files.length)

/-- `upload_event_album` (`app/routers/albums.py` lines 20-97) with its
exception handlers: `BadZipFile` becomes 400, an `HTTPException` is re-raised
as-is (this router has an explicit `except HTTPException: raise`), anything
else becomes 500.  The pre-exception table and store are returned on failure
(nothing was written before the first raise in this handler). -/
def upload_event_album (table : EventsTable) (store : S3Store)
    (event_id current_user : String) (album : ZipUpload) :
    HttpResponse × EventsTable × S3Store :=
  match upload_event_album_inner table store event_id current_user album with
  | Except.ok (t2, s2, _) => ({ status := 200, body := [] }, t2, s2)
  | Except.error PyExc.badZip => ({ status := 400, body := [] }, table, store)
  | Except.error (PyExc.http s _) => ({ status := s, body := [] }, table, store)
  | Except.error (PyExc.other _) => ({ status := 500, body := [] }, table, store)

/-- `get_personalized_album` (`app/routers/albums.py` lines 100-136): resolve
the event (a missing event makes `generate_event_folder_path(None)` raise,
which FastAPI turns into a 500 — there is no not-found check here), validate
the guest by uuid and phone (403 on failure), then head+get
`{path}personalized-albums/{phone}/{phone}.zip` (404 when absent) and stream
it. -/
def get_personalized_album (table : EventsTable) (store : S3Store)
    (event_id phone_number guest_uuid : String) : HttpResponse :=
  match get_event_by_id table event_id with
  | none => { status := 500, body := [] }
  | some event =>
      let event_folder_path := generate_event_folder_path event
      if validate_guest_by_uuid_and_phone_number store event_folder_path guest_uuid phone_number then
        let album_filename := phone_number ++ ".zip"
        let s3_key := event_folder_path ++ "personalized-albums/" ++ phone_number ++ "/" ++ album_filename
        match s3Get store s3_key with
        | some (S3Object.bytes b) => { status := 200, body := b }
        | some (S3Object.guestList _) => { status := 200, body := [] }
        | none => { status := 404, body := [] }
      else { status := 403, body := [] }

/-- `get_personalized_album_photos` (`app/routers/albums.py` lines 139-173):
after the same event resolution and guest validation, list the keys under
`{path}personalized-albums/{phone}/` with an image extension and return their
(presigned) URLs — abstracted here to the keys themselves. -/
def get_personalized_album_photos (table : EventsTable) (store : S3Store)
    (event_id phone_number guest_uuid : String) : Nat × List String :=
  match get_event_by_id table event_id with
  | none => (500, [])
  | some event =>
      let event_folder_path := generate_event_folder_path event
      if validate_guest_by_uuid_and_phone_number store event_folder_path guest_uuid phone_number then
        let s3_pre := event_folder_path ++ "personalized-albums/" ++ phone_number ++ "/"
        (200, (resultKeysFor store s3_pre).filter (fun k =>
          strEndsWith k ".jpg" || strEndsWith k ".jpeg" || strEndsWith k ".png"))
      else (403, [])

end AlbumsRouter

/-! ## Events router — `app/routers/events.py` -/

namespace EventsRouter

/-- The body of the `try` block of `get_event_details`
(`app/routers/events.py` lines 139-160): resolve the event (404 when absent),
check ownership (403 on mismatch), return the summary. -/
def get_event_details_inner (table : EventsTable) (event_id current_user : String) :
    Except PyExc Event :=
  match get_event_by_id table event_id with
  | none => Except.error (PyExc.http 404 "Event not found")
  | some event =>
      if event.email ≠ current_user then
        Except.error (PyExc.http 403 "You are not authorized to access this event")
      else Except.ok event

/-- `get_event_details` (`app/routers/events.py` lines 134-163): the
surrounding `try` has only a blanket `except Exception`, with no
`except HTTPException: raise` clause, so the 404 and 403 raised inside are
caught and re-raised as a 500 "Error fetching event". -/
def get_event_details (table : EventsTable) (event_id current_user : String) :
    HttpResponse :=
  match get_event_details_inner table event_id current_user with
  | Except.ok _ => { status := 200, body := [] }
  | Except.error _ => { status := 500, body := [] }

/-- The body of the `try` block of the events-router `upload_event_album`
(`app/routers/events.py` lines 178-195): resolve the event (404 when absent),
upload the album file under `{folder}album/{filename}` and mark the event
status — with no ownership check and no already-uploaded check. -/
def upload_event_album_inner (table : EventsTable) (store : S3Store)
    (event_id filename : String) (content : Bytes) (content_type : String) :
    Except PyExc (EventsTable × S3Store) :=
  match get_event_by_id table event_id with
  | none => Except.error (PyExc.http 404 "Event not found")
  | some event =>
      let put := S3Service.upload_file_to_s3 content (event.folder ++ "album/" ++ filename)
          content_type
      Except.ok (update_event_status table event_id EventStatus.ALBUM_UPLOADED,
        s3Put store put.key put.body)

/-- The events-router `upload_event_album` (`app/routers/events.py` lines
166-198): the blanket `except Exception` catches even the `HTTPException`
raised inside, so every failure — including a missing event — surfaces as a
500. -/
def upload_event_album (table : EventsTable) (store : S3Store)
    (event_id filename : String) (content : Bytes) (content_type : String) :
    HttpResponse × EventsTable × S3Store :=
  match upload_event_album_inner table store event_id filename content content_type with
  | Except.ok (t2, s2) => ({ status := 200, body := [] }, t2, s2)
  | Except.error _ => ({ status := 500, body := [] }, table, store)

end EventsRouter

/-! ## Guests router — `app/routers/guests.py` -/

namespace GuestsRouter

/-- The bucket name used for the stored photo URL host
(`app/routers/guests.py` line 25). -/
def BUCKET_NAME : String := "photo-guests-events"

/-- `submit_guest` (`app/routers/guests.py` lines 46-82): resolve the event,
upload the reference photo under
`{path}guest-submissions/{phone}_{uuid4}.jpg`, and append the submission
`{name, phone, photo_url}` to the guest list.  The fresh uuid4 is passed in as
`guest_uuid`.  The blanket `except Exception` turns every failure — including
the missing-event 404 — into a 500; a failure after the photo upload leaves
the uploaded photo in the store. -/
def submit_guest (table : EventsTable) (store : S3Store)
    (event_id name phone : String) (photo : Bytes)
    (photo_content_type guest_uuid : String) : HttpResponse × S3Store :=
  match get_event_by_id table event_id with
  | none => ({ status := 500, body := [] }, store)
  | some event =>
      let event_folder_path := generate_event_folder_path event
      let guest_photo_s3_key :=
        event_folder_path ++ "guest-submissions/" ++ phone ++ "_" ++ guest_uuid ++ ".jpg"
      let put := S3Service.upload_file_to_s3 photo guest_photo_s3_key photo_content_type
      let store1 := s3Put store put.key put.body
      let guest_submission : Guest :=
        { name := name
          phone := phone
          photo_url := "https://" ++ BUCKET_NAME ++ ".s3.amazonaws.com/" ++ guest_photo_s3_key }
      match S3Service.append_to_guest_list_in_s3 store1
          (event_folder_path ++ "guest-submissions/guest_list.json") guest_submission with
      | Except.error _ => ({ status := 500, body := [] }, store1)
      | Except.ok (store2, _) => ({ status := 200, body := [] }, store2)

/-- The album link built by `send_personalized_albums`
(`app/routers/guests.py` line 126):
`f"http://localhost:8000/albums/get-personalized-album/{event_id}/{guest_uuid}"`. -/
def personal_album_link (event_id guest_uuid : String) : String :=
  "http://localhost:8000/albums/get-personalized-album/" ++ event_id ++ "/" ++ guest_uuid

/-- The SMS body built by `send_sms_message` (`app/routers/guests.py` line 142). -/
def send_sms_message_body (event_name name link : String) : String :=
  "Hi " ++ name ++ "! 🎉 Your " ++ event_name ++
    " album is ready. Link to download as zip file: " ++ link ++ "\n Enjoy your memories! 📸"

/-- One attempted Twilio send: recipient phone and message body. -/
structure SmsAttempt where
  phone : String
  body : String
deriving Repr, DecidableEq, Inhabited

/-- The observable outcome of the batch-send endpoint: HTTP status, the
success count and roster size reported in the JSON message, the message
itself, and the trace of attempted sends. -/
structure BatchResult where
  status : Nat
  success_count : Nat
  total : Nat
  message : String
  attempts : List SmsAttempt
deriving Repr, DecidableEq, Inhabited

/-- The success message of `send_personalized_albums`
(`app/routers/guests.py` line 131). -/
def batch_message (s n : Nat) : String :=
  "Successfully sent " ++ toString s ++ "/" ++ toString n ++ " SMS messages."

/-- `send_personalized_albums` (`app/routers/guests.py` lines 86-135):
token check (401 before the `try`), event lookup and roster fetch (the 404s
raised inside the `try` are swallowed by the blanket `except Exception` into a
500), then the per-guest loop: guests without a phone are skipped; for each
remaining guest the link and message are built and `send_sms_message` is
called — it catches its own errors and returns a boolean, so a failed send
never aborts the loop (`sendOk` models Twilio's outcome per phone).  The loop
reads `event["name"]`, an attribute event records do not carry (they store
`event_name`), so the first guest with a phone raises `KeyError`, caught by
the blanket handler as a 500 before any send is attempted. -/
def send_personalized_albums (table : EventsTable) (store : S3Store)
    (event_id : String) (authorization required_token : Option String)
    (sendOk : String → Bool) : BatchResult :=
  if authorization ≠ required_token then
    { status := 401, success_count := 0, total := 0, message := "", attempts := [] }
  else
    match get_event_by_id table event_id with
    | none => { status := 500, success_count := 0, total := 0, message := "", attempts := [] }
    | some event =>
        let event_path := generate_event_folder_path event
        let guests := S3Service.get_guest_list_from_s3 store event_path
        if guests.isEmpty then
          { status := 500, success_count := 0, total := 0, message := "", attempts := [] }
        else
          match event.getAttr "name" with
          | some display_name =>
              let eligible := guests.filter (fun g => g.phone != "")
              let attempts := eligible.map (fun g =>
                { phone := g.phone
                  body := send_sms_message_body display_name g.name
                    (personal_album_link event_id (guest_uuid_from_photo_url g.photo_url)) })
              let success_count := (eligible.filter (fun g => sendOk g.phone)).length
              { status := 200, success_count := success_count, total := guests.length
                message := batch_message success_count guests.length, attempts := attempts }
          | none =>
              if guests.any (fun g => g.phone != "") then
                { status := 500, success_count := 0, total := 0, message := "", attempts := [] }
              else
                { status := 200, success_count := 0, total := guests.length
                  message := batch_message 0 guests.length, attempts := [] }

end GuestsRouter

/-! ## Concrete fixtures used by witnesses and counterexamples -/

/-- A demo guest as `submit_guest` would record one: the photo is stored as
`{phone}_{uuid4}.jpg`, so the derived opaque identifier is
`+15551234567_abc`. -/
def bob : Guest :=
  { name := "Bob"
    phone := "+15551234567"
    photo_url := "https://photo-guests-events.s3.amazonaws.com/alice/2025-06-01/Wedding/E1/guest-submissions/+15551234567_abc.jpg" }

/-- A second demo guest on the same event. -/
def ann : Guest :=
  { name := "Ann"
    phone := "+15557654321"
    photo_url := "https://photo-guests-events.s3.amazonaws.com/alice/2025-06-01/Wedding/E1/guest-submissions/+15557654321_def.jpg" }

/-- The canonical folder path of the demo event. -/
def demoPath : String := "alice/2025-06-01/Wedding/E1/"

/-- The demo event after its album was uploaded. -/
def demoEventUploaded : Event :=
  { event_id := "E1"
    event_name := "Wedding"
    event_date := "2025-06-01"
    photographer_name := "alice"
    email := "alice@example.com"
    phone := "+10000000000"
    folder := demoPath
    status := EventStatus.ALBUM_UPLOADED
    num_images := none }

/-- A store holding the demo event's album archive, the guest-submissions
folder marker and the roster with Bob. -/
def demoStore : S3Store :=
  [(demoPath ++ "album/event_album.zip", S3Object.bytes [1]),
   (demoPath ++ "guest-submissions/", S3Object.bytes []),
   (demoPath ++ "guest-submissions/guest_list.json", S3Object.guestList [bob])]

/-! ## Claim C10 — guest-list append -/

/-- Claim C10: a single (non-concurrent) `append_to_guest_list_in_s3` writes
back exactly the prior list with the new submission appended as the last
element, preserving all existing entries and their order; when the guest-list
object does not yet exist, the append creates a one-element list instead of
failing; and the write touches no other key. -/
theorem append_guest_list_spec (store : S3Store) (file_key : String) (g : Guest) :
    (s3Get store file_key = none →
      S3Service.append_to_guest_list_in_s3 store file_key g =
        Except.ok (s3Put store file_key (S3Object.guestList [g]),
          { key := file_key, body := S3Object.guestList [g],
            contentType := some "application/json", serverSideEncryption := none })) ∧
    (∀ gs, s3Get store file_key = some (S3Object.guestList gs) →
      S3Service.append_to_guest_list_in_s3 store file_key g =
        Except.ok (s3Put store file_key (S3Object.guestList (gs ++ [g])),
          { key := file_key, body := S3Object.guestList (gs ++ [g]),
            contentType := some "application/json", serverSideEncryption := none })) ∧
    (∀ v k, k ≠ file_key → s3Get (s3Put store file_key v) k = s3Get store k) := by
  refine ⟨?_, ?_, ?_⟩
  · intro h
    simp [S3Service.append_to_guest_list_in_s3, h]
  · intro gs h
    simp [S3Service.append_to_guest_list_in_s3, h]
  · intro v k h
    exact s3Get_put_ne store file_key v k h

/-- Claim C10 witness: appending Bob to a store without a guest list creates
the one-element list, and appending Ann afterwards appends her after Bob. -/
theorem append_guest_list_spec_witness :
    s3Get ([] : S3Store) "guest_list.json" = none ∧
    S3Service.append_to_guest_list_in_s3 ([] : S3Store) "guest_list.json" bob =
      Except.ok (s3Put ([] : S3Store) "guest_list.json" (S3Object.guestList [bob]),
        { key := "guest_list.json", body := S3Object.guestList [bob],
          contentType := some "application/json", serverSideEncryption := none }) :=
  ⟨rfl, (append_guest_list_spec ([] : S3Store) "guest_list.json" bob).1 rfl⟩

/-! ## Claim C6 — server-side encryption on writes -/

/-- Claim C6 counterexample: the guest-list JSON write performed by
`append_to_guest_list_in_s3` (`app/s3_service.py` lines 178-183) carries NO
`ServerSideEncryption` parameter, so not every Object Store Gateway write
requests server-side encryption. -/
theorem guest_list_write_requests_no_sse :
    (match S3Service.append_to_guest_list_in_s3 ([] : S3Store)
        "alice/2025-06-01/Wedding/E1/guest-submissions/guest_list.json" bob with
     | Except.ok (_, req) => req.serverSideEncryption
     | Except.error _ => some "unreachable") = none := by rfl

/-- Claim C6 amended: every write except the guest-list JSON write requests
`ServerSideEncryption="aws:kms"` — the folder markers of
`create_event_folder`, every `upload_file_to_s3` (album images, album zip,
guest photos, personalized results) and every `upload_images_to_s3` upload —
while the `put_object` of `append_to_guest_list_in_s3` requests none. -/
theorem other_writes_request_sse :
    (∀ u d n i p, p ∈ (S3Service.create_event_folder u d n i).2 →
      p.serverSideEncryption = some "aws:kms") ∧
    (∀ f fn ct, (S3Service.upload_file_to_s3 f fn ct).serverSideEncryption = some "aws:kms") ∧
    (∀ imgs base p, p ∈ S3Service.upload_images_to_s3 imgs base →
      p.serverSideEncryption = some "aws:kms") ∧
    (∀ store k g res, S3Service.append_to_guest_list_in_s3 store k g = Except.ok res →
      res.2.serverSideEncryption = none) := by
  refine ⟨?_, ?_, ?_, ?_⟩
  · intro u d n i p hp
    simp [S3Service.create_event_folder] at hp
    rcases hp with rfl | rfl | rfl <;> rfl
  · intro f fn ct
    rfl
  · intro imgs base p hp
    simp [S3Service.upload_images_to_s3] at hp
    obtain ⟨a, b, hmem, rfl⟩ := hp
    rfl
  · intro store k g res hres
    unfold S3Service.append_to_guest_list_in_s3 at hres
    cases hget : s3Get store k with
    | none =>
        rw [hget] at hres
        cases hres
        rfl
    | some obj =>
        cases obj with
        | bytes b =>
            rw [hget] at hres
            cases hres
        | guestList gs =>
            rw [hget] at hres
            cases hres
            rfl

/-- Claim C6 witness: a concrete `upload_images_to_s3` write carries the
encryption parameter. -/
theorem other_writes_request_sse_witness :
    ({ key := "base" ++ "/" ++ basename "x/a.jpg", body := S3Object.bytes [7],
       contentType := some "image/jpeg", serverSideEncryption := some "aws:kms" } : PutRequest) ∈
      S3Service.upload_images_to_s3 [("x/a.jpg", [7])] "base" ∧
    ({ key := "base" ++ "/" ++ basename "x/a.jpg", body := S3Object.bytes [7],
       contentType := some "image/jpeg", serverSideEncryption := some "aws:kms" } : PutRequest).serverSideEncryption =
      some "aws:kms" :=
  ⟨List.mem_singleton.mpr rfl,
   other_writes_request_sse.2.2.1 [("x/a.jpg", [7])] "base" _ (List.mem_singleton.mpr rfl)⟩

/-! ## Claim C8 — HTTP status for a missing event -/

/-- Claim C8 counterexample: fetching the details of an event that does not
exist returns 500, not 404 — the 404 raised inside `get_event_details` is
caught by its own blanket `except Exception` and re-raised as a 500. -/
theorem get_event_details_missing_event_500 :
    EventsRouter.get_event_details ([] : EventsTable) "E1" "alice@example.com" =
      { status := 500, body := [] } ∧ (500 : Nat) ≠ 404 :=
  ⟨rfl, by decide⟩

/-- Claim C8 amended: for a request naming an event identifier with no event
record, only the albums-router `upload_event_album` (which has an
`except HTTPException: raise` clause) returns 404; `get_event_details`, the
events-router `upload_event_album` and `submit_guest` wrap their own 404 into
a 500 through their blanket `except Exception`, `send_personalized_albums`
does the same, and the delivery endpoint raises on the missing record and
returns 500. -/
theorem missing_event_statuses (table : EventsTable) (store : S3Store)
    (event_id user filename ct name phone guest_uuid pn gu : String)
    (content photo : Bytes) (album : AlbumsRouter.ZipUpload)
    (tok : Option String) (sendOk : String → Bool)
    (h : get_event_by_id table event_id = none) :
    (AlbumsRouter.upload_event_album table store event_id user album).1.status = 404 ∧
    (EventsRouter.get_event_details table event_id user).status = 500 ∧
    (EventsRouter.upload_event_album table store event_id filename content ct).1.status = 500 ∧
    (GuestsRouter.submit_guest table store event_id name phone photo ct guest_uuid).1.status = 500 ∧
    (GuestsRouter.send_personalized_albums table store event_id tok tok sendOk).status = 500 ∧
    (AlbumsRouter.get_personalized_album table store event_id pn gu).status = 500 := by
  refine ⟨?_, ?_, ?_, ?_, ?_, ?_⟩
  · simp [AlbumsRouter.upload_event_album, AlbumsRouter.upload_event_album_inner, h]
  · simp [EventsRouter.get_event_details, EventsRouter.get_event_details_inner, h]
  · simp [EventsRouter.upload_event_album, EventsRouter.upload_event_album_inner, h]
  · simp [GuestsRouter.submit_guest, h]
  · simp [GuestsRouter.send_personalized_albums, h]
  · simp [AlbumsRouter.get_personalized_album, h]

/-- Claim C8 witness: the statuses above at a concrete request against an
empty Events table. -/
theorem missing_event_statuses_witness :
    get_event_by_id ([] : EventsTable) "E1" = none ∧
    (AlbumsRouter.upload_event_album ([] : EventsTable) ([] : S3Store) "E1" "u"
      (AlbumsRouter.ZipUpload.zip [])).1.status = 404 ∧
    (EventsRouter.get_event_details ([] : EventsTable) "E1" "u").status = 500 :=
  ⟨rfl,
   (missing_event_statuses ([] : EventsTable) ([] : S3Store) "E1" "u" "f" "ct" "n" "p" "g"
      "pn" "gu" [] [] (AlbumsRouter.ZipUpload.zip []) none (fun _ => true) rfl).1,
   (missing_event_statuses ([] : EventsTable) ([] : S3Store) "E1" "u" "f" "ct" "n" "p" "g"
      "pn" "gu" [] [] (AlbumsRouter.ZipUpload.zip []) none (fun _ => true) rfl).2.1⟩

/-! ## Claim C7 — shape of the SMS retrieval link -/

/-- The path segments following the fixed
`http://localhost:8000/albums/get-personalized-album/` base that
`personal_album_link` hardcodes. -/
def segmentsAfterDeliveryRoute (url : String) : List String :=
  let base := "http://localhost:8000/albums/get-personalized-album/"
  if hasPre base url then
    splitOnChar '/' (String.mk (url.data.drop base.data.length))
  else []

/-- Claim C7: the retrieval link that `send_personalized_albums` builds
(`app/routers/guests.py` line 126) has only TWO path segments after the route
— the event id and the photo-filename stem `{phone}_{uuid}` fused into one
segment — not the three segments `{eventId}/{phone}/{guestOpaqueId}` that the
delivery route `get-personalized-album/{event_id}/{phone_number}/{guest_uuid}`
(`app/routers/albums.py` line 100) requires, so the link cannot match the
code's own delivery route. -/
theorem sms_link_missing_phone_segment :
    GuestsRouter.personal_album_link "E1" (guest_uuid_from_photo_url bob.photo_url) =
      "http://localhost:8000/albums/get-personalized-album/E1/+15551234567_abc" ∧
    segmentsAfterDeliveryRoute (GuestsRouter.personal_album_link "E1"
      (guest_uuid_from_photo_url bob.photo_url)) = ["E1", "+15551234567_abc"] ∧
    (segmentsAfterDeliveryRoute (GuestsRouter.personal_album_link "E1"
      (guest_uuid_from_photo_url bob.photo_url))).length ≠ 3 ∧
    GuestsRouter.personal_album_link "E1" (guest_uuid_from_photo_url bob.photo_url) ≠
      "http://localhost:8000/albums/get-personalized-album/E1/+15551234567/+15551234567_abc" := by
  refine ⟨rfl, by decide, by decide, by decide⟩

/-! ## Claim C4 — recognition retry and abort behavior -/

/-- A service that is unavailable on the first attempt and healthy on the
second and third. -/
def flakyResponses : List FaceRecImages.RecResponse :=
  [{ status_code := 503, content := [] },
   { status_code := 200, content := [("1.jpg", [9])] },
   { status_code := 200, content := [("1.jpg", [9])] }]

/-- Claim C4 counterexample: the recognition call is NOT retried — a service
failing once and then healthy makes the code's single-attempt call fail, while
the spec's bounded-retry client (3 attempts) would succeed on the second
attempt. -/
theorem recognition_not_retried :
    exceptOk (FaceRecImages.send_to_face_recognition_service flakyResponses "tmp") = false ∧
    exceptOk (FaceRecImages.spec_retry_send 3 flakyResponses "tmp") = true :=
  ⟨rfl, rfl⟩

/-- A successful recognition response implies the first attempt answered 200. -/
theorem send_ok_head (responses : List FaceRecImages.RecResponse) (temp : String)
    (imgs : List (String × Bytes))
    (h : FaceRecImages.send_to_face_recognition_service responses temp = Except.ok imgs) :
    ∃ r rest, responses = r :: rest ∧ r.status_code = 200 := by
  cases responses with
  | nil => simp [FaceRecImages.send_to_face_recognition_service] at h
  | cons r rest =>
      by_cases hr : r.status_code = 200
      · exact ⟨r, rest, rfl, hr⟩
      · simp [FaceRecImages.send_to_face_recognition_service, hr] at h

/-- Claim C4 amended: the pipeline makes exactly one recognition attempt — no
retry, no backoff (responses after the first are never consumed) — and when
that single attempt fails (connection failure or non-200) the invocation
surfaces the exception and aborts with the store unchanged: no partial result
is published. -/
theorem single_attempt_abort_no_publish (store : S3Store) (event_pre phone temp : String)
    (responses : List FaceRecImages.RecResponse)
    (hfail : ∀ r, responses.head? = some r → r.status_code ≠ 200) :
    (FaceRecImages.create_and_upload_personalized_albums store event_pre phone responses temp).1
      = store ∧
    exceptOk (FaceRecImages.create_and_upload_personalized_albums store event_pre phone
      responses temp).2 = false ∧
    (∀ (r : FaceRecImages.RecResponse) rest rest',
      FaceRecImages.create_and_upload_personalized_albums store event_pre phone (r :: rest) temp =
        FaceRecImages.create_and_upload_personalized_albums store event_pre phone (r :: rest') temp) := by
  have hsend : ∀ imgs, FaceRecImages.send_to_face_recognition_service responses temp ≠
      Except.ok imgs := by
    intro imgs hok
    obtain ⟨r, rest, hr, h200⟩ := send_ok_head responses temp imgs hok
    exact hfail r (by rw [hr]; rfl) h200
  refine ⟨?_, ?_, ?_⟩
  · unfold FaceRecImages.create_and_upload_personalized_albums
    split
    · dsimp only
      repeat' split
      all_goals rfl
    · rename_i imgs heq
      exact absurd heq (hsend imgs)
  · unfold FaceRecImages.create_and_upload_personalized_albums
    split
    · dsimp only
      repeat' split
      all_goals rfl
    · rename_i imgs heq
      exact absurd heq (hsend imgs)
  · intro r rest rest'
    rfl

/-- Claim C4 witness: a single 503 response makes the concrete pipeline run
abort with the demo store unchanged. -/
theorem single_attempt_abort_no_publish_witness :
    (∀ r, [({ status_code := 503, content := [] } : FaceRecImages.RecResponse)].head? = some r →
      r.status_code ≠ 200) ∧
    (FaceRecImages.create_and_upload_personalized_albums demoStore demoPath "+15551234567"
      [{ status_code := 503, content := [] }] "tmp").1 = demoStore :=
  ⟨by intro r hr; cases hr; decide,
   (single_attempt_abort_no_publish demoStore demoPath "+15551234567" "tmp"
     [{ status_code := 503, content := [] }]
     (by intro r hr; cases hr; decide)).1⟩

/-! ## Claim C5 — album re-upload -/

/-- Claim C5 counterexample: the events-router duplicate of
`upload_event_album` (`app/routers/events.py` lines 166-198), also mounted by
`main.py`, has NO status guard: for the demo event whose status is already
"album uploaded", a second upload through it returns 200 and writes the new
album file into the event folder, so a second album-upload attempt is not
always rejected. -/
theorem events_route_reupload_succeeds :
    demoEventUploaded.status = EventStatus.ALBUM_UPLOADED ∧
    (EventsRouter.upload_event_album [demoEventUploaded] demoStore "E1" "album.zip" [5]
      "application/zip").1.status = 200 ∧
    s3Get (EventsRouter.upload_event_album [demoEventUploaded] demoStore "E1" "album.zip" [5]
      "application/zip").2.2 ("alice/2025-06-01/Wedding/E1/album/album.zip") =
      some (S3Object.bytes [5]) :=
  ⟨rfl, rfl, rfl⟩

/-- Claim C5 amended: the albums-router `upload_event_album`
(`app/routers/albums.py` lines 34-44) rejects a second upload with the
specific 400 error as soon as the event status equals "album uploaded",
leaving both the Events table and the store untouched; the events-router
duplicate of the endpoint performs no such check and accepts re-uploads. -/
theorem albums_route_reupload_rejected (table : EventsTable) (store : S3Store)
    (event_id user : String) (album : AlbumsRouter.ZipUpload) (ev : Event)
    (hev : get_event_by_id table event_id = some ev)
    (howner : ev.email = user)
    (hst : ev.status = EventStatus.ALBUM_UPLOADED) :
    AlbumsRouter.upload_event_album table store event_id user album =
      ({ status := 400, body := [] }, table, store) := by
  unfold AlbumsRouter.upload_event_album AlbumsRouter.upload_event_album_inner
  rw [hev]
  simp [howner, hst]

/-- Claim C5 witness: the rejection at the concrete demo event. -/
theorem albums_route_reupload_rejected_witness :
    get_event_by_id [demoEventUploaded] "E1" = some demoEventUploaded ∧
    demoEventUploaded.email = "alice@example.com" ∧
    demoEventUploaded.status = EventStatus.ALBUM_UPLOADED ∧
    AlbumsRouter.upload_event_album [demoEventUploaded] demoStore "E1" "alice@example.com"
      (AlbumsRouter.ZipUpload.zip [("1.jpg", [1])]) =
      ({ status := 400, body := [] }, [demoEventUploaded], demoStore) :=
  ⟨rfl, rfl, rfl,
   albums_route_reupload_rejected [demoEventUploaded] demoStore "E1" "alice@example.com"
     (AlbumsRouter.ZipUpload.zip [("1.jpg", [1])]) demoEventUploaded rfl rfl rfl⟩

/-! ## Claim C1 — delivery requires the exact (phone, opaque id) pair -/

/-- The validation predicate holds exactly when some roster entry matches both
the phone number and the derived opaque identifier. -/
theorem validate_iff (store : S3Store) (path uu pn : String) :
    validate_guest_by_uuid_and_phone_number store path uu pn = true ↔
      ∃ g ∈ S3Service.get_guest_list_from_s3 store path,
        g.phone = pn ∧ guest_uuid_from_photo_url g.photo_url = uu := by
  simp [validate_guest_by_uuid_and_phone_number, List.any_eq_true, Bool.and_eq_true,
    beq_iff_eq]

/-- Claim C1: on the delivery endpoint, when the event exists, the response is
Forbidden (403) exactly when NO roster entry carries both the presented phone
number and the presented opaque identifier — correct phone with wrong id, or
correct id with wrong phone, always yields 403 — and a success (200) implies
some single roster entry matches both.  (The roster validation itself is
modelled from the spec, its source being absent from the tree.) -/
theorem delivery_requires_exact_pair (table : EventsTable) (store : S3Store)
    (event_id phone_number guest_uuid : String) (ev : Event)
    (hev : get_event_by_id table event_id = some ev) :
    ((AlbumsRouter.get_personalized_album table store event_id phone_number guest_uuid).status
        = 403 ↔
      ¬ ∃ g ∈ S3Service.get_guest_list_from_s3 store (generate_event_folder_path ev),
          g.phone = phone_number ∧ guest_uuid_from_photo_url g.photo_url = guest_uuid) ∧
    ((AlbumsRouter.get_personalized_album table store event_id phone_number guest_uuid).status
        = 200 →
      ∃ g ∈ S3Service.get_guest_list_from_s3 store (generate_event_folder_path ev),
        g.phone = phone_number ∧ guest_uuid_from_photo_url g.photo_url = guest_uuid) := by
  unfold AlbumsRouter.get_personalized_album
  rw [hev]
  by_cases hv : validate_guest_by_uuid_and_phone_number store (generate_event_folder_path ev)
      guest_uuid phone_number = true
  · have hex := (validate_iff store (generate_event_folder_path ev) guest_uuid
      phone_number).mp hv
    simp only [hv, if_true]
    constructor
    · constructor
      · intro h403
        split at h403 <;> simp_all
      · intro hne
        exact absurd hex hne
    · intro _
      exact hex
  · have hnex : ¬ ∃ g ∈ S3Service.get_guest_list_from_s3 store (generate_event_folder_path ev),
        g.phone = phone_number ∧ guest_uuid_from_photo_url g.photo_url = guest_uuid :=
      fun hex => hv ((validate_iff store (generate_event_folder_path ev) guest_uuid
        phone_number).mpr hex)
    simp [hv, hnex]

/-- Claim C1 witness: with Bob on the roster, presenting Bob's phone together
with a wrong opaque identifier yields 403. -/
theorem delivery_requires_exact_pair_witness :
    get_event_by_id [demoEventUploaded] "E1" = some demoEventUploaded ∧
    ((AlbumsRouter.get_personalized_album [demoEventUploaded] demoStore "E1" "+15551234567"
        "wronguuid").status = 403 ↔
      ¬ ∃ g ∈ S3Service.get_guest_list_from_s3 demoStore
          (generate_event_folder_path demoEventUploaded),
          g.phone = "+15551234567" ∧ guest_uuid_from_photo_url g.photo_url = "wronguuid") :=
  ⟨rfl,
   (delivery_requires_exact_pair [demoEventUploaded] demoStore "E1" "+15551234567" "wronguuid"
     demoEventUploaded rfl).1⟩

/-! ## Claim C9 — batch notification aggregation -/

/-- A store holding only the demo roster with Bob and Ann, both with phone
numbers. -/
def demoRosterStore : S3Store :=
  [(demoPath ++ "guest-submissions/guest_list.json", S3Object.guestList [bob, ann])]

/-- Event records carry no `"name"` attribute: every writer in the code base
stores the display name under `"event_name"`. -/
theorem getAttr_name_none (e : Event) : e.getAttr "name" = none := rfl

/-- Claim C9 counterexample: with two phone-bearing recipients and a Twilio
that would accept every message, the batch send returns a 500 and attempts NO
send at all — the loop reads `event["name"]` (records store only
`event_name`), raising `KeyError` at the first phone-bearing guest, caught by
the blanket handler — so the batch neither processes the remaining recipients
nor returns any success/failure aggregate. -/
theorem batch_send_aborts_before_any_send :
    GuestsRouter.send_personalized_albums [demoEventUploaded] demoRosterStore "E1"
      (some "tok") (some "tok") (fun _ => true) =
      { status := 500, success_count := 0, total := 0, message := "", attempts := [] } := rfl

/-- Claim C9 amended: the per-recipient send helper returns a boolean and
swallows its own errors, so a failed send would not abort the loop; but the
batch endpoint reads the nonexistent `event["name"]` attribute, so whenever
the roster holds any recipient with a phone number the whole batch aborts with
a 500 before any send, and when no recipient has a phone number it returns
only the success count (0) and the roster size — never a list of failures. -/
theorem batch_send_behavior (table : EventsTable) (store : S3Store) (event_id : String)
    (tok : Option String) (sendOk : String → Bool) (ev : Event)
    (hev : get_event_by_id table event_id = some ev) :
    ((S3Service.get_guest_list_from_s3 store (generate_event_folder_path ev)).any
        (fun g => g.phone != "") = true →
      GuestsRouter.send_personalized_albums table store event_id tok tok sendOk =
        { status := 500, success_count := 0, total := 0, message := "", attempts := [] }) ∧
    (∀ g gs, S3Service.get_guest_list_from_s3 store (generate_event_folder_path ev) = g :: gs →
      (g :: gs).any (fun x => x.phone != "") = false →
      GuestsRouter.send_personalized_albums table store event_id tok tok sendOk =
        { status := 200, success_count := 0, total := (g :: gs).length
          message := GuestsRouter.batch_message 0 (g :: gs).length, attempts := [] }) := by
  refine ⟨?_, ?_⟩
  · intro hany
    have hne : (S3Service.get_guest_list_from_s3 store (generate_event_folder_path ev)).isEmpty
        = false := by
      cases hgl : S3Service.get_guest_list_from_s3 store (generate_event_folder_path ev) with
      | nil => rw [hgl] at hany; simp at hany
      | cons a l => simp
    simp [GuestsRouter.send_personalized_albums, hev, hne, hany, getAttr_name_none]
  · intro g gs hgl hnone
    simp [GuestsRouter.send_personalized_albums, hev, hgl, getAttr_name_none, hnone]

/-- Claim C9 witness: the abort at the concrete demo roster. -/
theorem batch_send_behavior_witness :
    get_event_by_id [demoEventUploaded] "E1" = some demoEventUploaded ∧
    (S3Service.get_guest_list_from_s3 demoRosterStore
      (generate_event_folder_path demoEventUploaded)).any (fun g => g.phone != "") = true ∧
    GuestsRouter.send_personalized_albums [demoEventUploaded] demoRosterStore "E1"
      (some "T") (some "T") (fun _ => false) =
      { status := 500, success_count := 0, total := 0, message := "", attempts := [] } :=
  ⟨rfl, rfl,
   (batch_send_behavior [demoEventUploaded] demoRosterStore "E1" (some "T")
     (fun _ => false) demoEventUploaded rfl).1 rfl⟩

/-! ## Claim C2 — publish/fetch round trip -/

/-- A successful recognition response with one matched image `a.jpg`. -/
def r1demo : FaceRecImages.RecResponse :=
  { status_code := 200, content := [("a.jpg", [9])] }

/-- One full pipeline run for Bob on the demo store. -/
def pipelineRun1 : S3Store × Except PyExc (List PutRequest) :=
  FaceRecImages.create_and_upload_personalized_albums demoStore demoPath "+15551234567"
    [r1demo] "tmp"

/-- Claim C2 counterexample: the pipeline run succeeds and writes Bob's result
as individual images under `personalized-albums/+15551234567/`, but the zip
delivery endpoint reads `personalized-albums/+15551234567/+15551234567.zip`, a
key the pipeline never writes: fetching immediately after publishing returns
404, not the recognition output — while the photos-listing endpoint, which
lists the prefix the pipeline writes under, does return exactly the written
image.  The storage key the pipeline writes is not the key the zip delivery
endpoint reads. -/
theorem pipeline_then_zip_delivery_404 :
    exceptOk pipelineRun1.2 = true ∧
    AlbumsRouter.get_personalized_album [demoEventUploaded] pipelineRun1.1 "E1"
      "+15551234567" "+15551234567_abc" = { status := 404, body := [] } ∧
    AlbumsRouter.get_personalized_album_photos [demoEventUploaded] pipelineRun1.1 "E1"
      "+15551234567" "+15551234567_abc" =
      (200, ["alice/2025-06-01/Wedding/E1/personalized-albums/+15551234567/a.jpg"]) := by
  refine ⟨rfl, by decide, by decide⟩

/-- Claim C2 amended: at the storage layer the publish step round-trips —
after `upload_images_to_s3` every written key immediately reads back exactly
the bytes produced by the recognition call (given distinct upload keys), and
every key the batch does not write — in particular the
`personalized-albums/{phone}/{phone}.zip` key the zip delivery endpoint
reads, whenever no result image is named `{phone}.zip` — is untouched. -/
theorem publish_fetch_roundtrip (s0 : S3Store) (base : String)
    (imgs : List (String × Bytes))
    (hnd : ((S3Service.upload_images_to_s3 imgs base).map PutRequest.key).Nodup) :
    (∀ p ∈ S3Service.upload_images_to_s3 imgs base,
      s3Get (applyPuts s0 (S3Service.upload_images_to_s3 imgs base)) p.key = some p.body) ∧
    (∀ k, k ∉ (S3Service.upload_images_to_s3 imgs base).map PutRequest.key →
      s3Get (applyPuts s0 (S3Service.upload_images_to_s3 imgs base)) k = s3Get s0 k) := by
  refine ⟨fun p hp => s3Get_applyPuts_mem _ s0 p hp hnd, fun k hk =>
    s3Get_applyPuts_not_mem _ s0 k (fun p hp he => hk (he ▸ List.mem_map_of_mem _ hp))⟩

/-- Claim C2 witness: publishing Bob's single matched image leaves the zip key
the delivery endpoint would read untouched (absent on the demo store). -/
theorem publish_fetch_roundtrip_witness :
    ((S3Service.upload_images_to_s3 [("tmp/a.jpg", [9])]
      (demoPath ++ "personalized-albums/+15551234567")).map PutRequest.key).Nodup ∧
    s3Get (applyPuts demoStore (S3Service.upload_images_to_s3 [("tmp/a.jpg", [9])]
        (demoPath ++ "personalized-albums/+15551234567")))
        (demoPath ++ "personalized-albums/+15551234567/+15551234567.zip") =
      s3Get demoStore (demoPath ++ "personalized-albums/+15551234567/+15551234567.zip") :=
  ⟨by decide,
   (publish_fetch_roundtrip demoStore (demoPath ++ "personalized-albums/+15551234567")
     [("tmp/a.jpg", [9])] (by decide)).2
     (demoPath ++ "personalized-albums/+15551234567/+15551234567.zip") (by decide)⟩

/-! ## Claim C3 — idempotent replace on re-run -/

/-- A second successful recognition response whose single matched image has a
different filename `b.jpg`. -/
def r2demo : FaceRecImages.RecResponse :=
  { status_code := 200, content := [("b.jpg", [8])] }

/-- The store before any pipeline run: album archive and guest-photo marker
only. -/
def runStore0 : S3Store :=
  [(demoPath ++ "album/event_album.zip", S3Object.bytes [1]),
   (demoPath ++ "guest-submissions/", S3Object.bytes [])]

/-- The store after the first run (matched `a.jpg`). -/
def rerunS1 : S3Store :=
  (FaceRecImages.create_and_upload_personalized_albums runStore0 demoPath "+15551234567"
    [r1demo] "tmp").1

/-- The store after the second run (matched `b.jpg`) on top of the first. -/
def rerunS2 : S3Store :=
  (FaceRecImages.create_and_upload_personalized_albums rerunS1 demoPath "+15551234567"
    [r2demo] "tmp").1

/-- The guest-scoped result prefix for Bob. -/
def guestResultPre : String := demoPath ++ "personalized-albums/+15551234567/"

/-- Claim C3 counterexample: two successful runs whose match sets differ
(first `a.jpg`, then `b.jpg`, each a single match) leave TWO objects under the
guest's result prefix — the stale `a.jpg` of the first run survives — so the
stored result set is the union of the runs (size 2, the sum of the counts),
not the latest run's output (size 1). -/
theorem rerun_accumulates_stale_results :
    exceptOk (FaceRecImages.create_and_upload_personalized_albums runStore0 demoPath
      "+15551234567" [r1demo] "tmp").2 = true ∧
    exceptOk (FaceRecImages.create_and_upload_personalized_albums rerunS1 demoPath
      "+15551234567" [r2demo] "tmp").2 = true ∧
    r2demo.content.length = 1 ∧
    resultKeysFor rerunS2 guestResultPre =
      [demoPath ++ "personalized-albums/+15551234567/b.jpg",
       demoPath ++ "personalized-albums/+15551234567/a.jpg"] ∧
    (resultKeysFor rerunS2 guestResultPre).length = 2 := by
  refine ⟨rfl, by decide, rfl, by decide, by decide⟩

/-- Every key written by `upload_images_to_s3` lies under `base ++ "/"`. -/
theorem upload_images_keys_under (imgs : List (String × Bytes)) (base : String) :
    ∀ k ∈ (S3Service.upload_images_to_s3 imgs base).map PutRequest.key,
      hasPre (base ++ "/") k = true := by
  intro k hk
  obtain ⟨p, hp, rfl⟩ := List.mem_map.mp hk
  obtain ⟨x, hx, rfl⟩ := List.mem_map.mp hp
  exact hasPre_append (base ++ "/") (basename x.fst)

/-- Claim C3 amended: re-running overwrites per filename.  When the second
run's upload keys contain the first run's (in particular when both runs match
the same files), the result set under the guest prefix is exactly the latest
run's output: every latest-run key reads back the latest-run bytes, and the
number of stored result objects equals the latest run's match count.  (When
the filename sets differ, stale first-run files persist, as the
counterexample shows.) -/
theorem rerun_overwrite_exact_when_superset (s0 : S3Store) (base : String)
    (imgs1 imgs2 : List (String × Bytes))
    (hnod0 : (keysOf s0).Nodup)
    (hfresh : resultKeysFor s0 (base ++ "/") = [])
    (hnd2 : ((S3Service.upload_images_to_s3 imgs2 base).map PutRequest.key).Nodup)
    (hsub : ∀ k ∈ (S3Service.upload_images_to_s3 imgs1 base).map PutRequest.key,
      k ∈ (S3Service.upload_images_to_s3 imgs2 base).map PutRequest.key) :
    (∀ p ∈ S3Service.upload_images_to_s3 imgs2 base,
      s3Get (applyPuts (applyPuts s0 (S3Service.upload_images_to_s3 imgs1 base))
        (S3Service.upload_images_to_s3 imgs2 base)) p.key = some p.body) ∧
    (resultKeysFor (applyPuts (applyPuts s0 (S3Service.upload_images_to_s3 imgs1 base))
      (S3Service.upload_images_to_s3 imgs2 base)) (base ++ "/")).length = imgs2.length := by
  have hfreshmem : ∀ a ∈ keysOf s0, ¬ hasPre (base ++ "/") a = true :=
    List.filter_eq_nil_iff.mp hfresh
  refine ⟨fun p hp => s3Get_applyPuts_mem _ _ p hp hnd2, ?_⟩
  have hmem2 : ∀ a,
      a ∈ resultKeysFor (applyPuts (applyPuts s0 (S3Service.upload_images_to_s3 imgs1 base))
        (S3Service.upload_images_to_s3 imgs2 base)) (base ++ "/") ↔
      a ∈ (S3Service.upload_images_to_s3 imgs2 base).map PutRequest.key := by
    intro a
    constructor
    · intro ha
      obtain ⟨hks, hpre⟩ := List.mem_filter.mp ha
      rcases (mem_keysOf_applyPuts _ _ a).mp hks with h | h
      · exact h
      · rcases (mem_keysOf_applyPuts _ _ a).mp h with h' | h'
        · exact hsub a h'
        · exact absurd hpre (hfreshmem a h')
    · intro ha
      exact List.mem_filter.mpr ⟨(mem_keysOf_applyPuts _ _ a).mpr (Or.inl ha),
        upload_images_keys_under imgs2 base a ha⟩
  have hnodups2 : (resultKeysFor (applyPuts (applyPuts s0
      (S3Service.upload_images_to_s3 imgs1 base))
      (S3Service.upload_images_to_s3 imgs2 base)) (base ++ "/")).Nodup :=
    List.Nodup.filter _ (nodup_keysOf_applyPuts _ _ (nodup_keysOf_applyPuts _ _ hnod0))
  have hperm := (List.perm_ext_iff_of_nodup hnodups2 hnd2).mpr hmem2
  rw [hperm.length_eq, List.length_map]
  exact List.length_map _ _

/-- Claim C3 witness: re-running with the same single matched file overwrites
in place — one stored object, the latest bytes. -/
theorem rerun_overwrite_exact_when_superset_witness :
    (keysOf runStore0).Nodup ∧
    resultKeysFor runStore0 ((demoPath ++ "personalized-albums/+15551234567") ++ "/") = [] ∧
    (resultKeysFor (applyPuts (applyPuts runStore0 (S3Service.upload_images_to_s3
        [("tmp/a.jpg", [9])] (demoPath ++ "personalized-albums/+15551234567")))
      (S3Service.upload_images_to_s3 [("tmp/a.jpg", [10])]
        (demoPath ++ "personalized-albums/+15551234567")))
      ((demoPath ++ "personalized-albums/+15551234567") ++ "/")).length = 1 :=
  ⟨by decide, by decide,
   (rerun_overwrite_exact_when_superset runStore0
     (demoPath ++ "personalized-albums/+15551234567")
     [("tmp/a.jpg", [9])] [("tmp/a.jpg", [10])]
     (by decide) (by decide) (by decide) (by decide)).2⟩
